import Mathlib

/-!
Verification of the UNIVERZ particle-background engine.

Three variants of the engine exist in the repository:
* the constellation-network variant (`ParticleBackground.tsx`, attraction model),
* the repulsion-field variant (drifting colored particles, repulsion model),
* the grid-glow variant (fixed grid lit near a smoothed pointer).

Numbers are modelled as exact rationals (`ℚ`); the source's `Math.sqrt` is
modelled by passing the computed distance `d` as an explicit argument together
with the defining hypothesis `d ^ 2 = distSq …` and `0 ≤ d` where the value of
the square root matters.
-/

namespace Univerz

/-- Linear interpolation, as defined identically in all three variants:
`lerp(a, b, t) = a + (b - a) * t`. -/
def lerp (a b t : ℚ) : ℚ := a + (b - a) * t

/-- Squared Euclidean distance between two points; the source computes
`Math.sqrt(dx*dx + dy*dy)`, so a nonnegative `d` with `d ^ 2 = distSq …`
is exactly the source's `dist`. -/
def distSq (ax ay bx bY : ℚ) : ℚ := (ax - bx) ^ 2 + (ay - bY) ^ 2

/-- Edge wrapping of one home-position coordinate, shared shape of both particle
variants (margin 20 in the network variant, 10 in the repulsion variant):
`if (x < -margin) x = dim + margin; if (x > dim + margin) x = -margin;`
as two sequential conditionals, low side checked first. -/
def wrapCoord (dim margin x : ℚ) : ℚ :=
  let x1 := if x < -margin then dim + margin else x
  if x1 > dim + margin then -margin else x1

namespace Network

/-- Constant `NODE_DENSITY = 0.00008` — nodes per px² of viewport. -/
def NODE_DENSITY : ℚ := 0.00008

/-- Constant `CONNECT_DIST = 180` — max distance (px) to draw an edge. -/
def CONNECT_DIST : ℚ := 180

/-- Constant `MOUSE_CONNECT_DIST = 250` — cursor connects further than nodes. -/
def MOUSE_CONNECT_DIST : ℚ := 250

/-- Constant `MOUSE_ATTRACT = 0.012` — how strongly the cursor pulls nodes. -/
def MOUSE_ATTRACT : ℚ := 0.012

/-- Constant `MOUSE_RADIUS = 280` — radius of cursor influence. -/
def MOUSE_RADIUS : ℚ := 280

/-- Constant `DRIFT_SPEED = 0.15` — ambient float velocity. -/
def DRIFT_SPEED : ℚ := 0.15

/-- Constant `LERP_RETURN = 0.03` — smoothness of return after attraction. -/
def LERP_RETURN : ℚ := 0.03

/-- Constant `NODE_MIN_R = 1.0`. -/
def NODE_MIN_R : ℚ := 1.0

/-- Constant `NODE_MAX_R = 2.2`. -/
def NODE_MAX_R : ℚ := 2.2

/-- A node of the constellation-network variant: rendered position `(x, y)`,
origin (drift/home) position `(ox, oy)`, drift velocity `(vx, vy)`,
radius `r` and pulse phase `phase`. -/
structure Node where
  x : ℚ
  y : ℚ
  ox : ℚ
  oy : ℚ
  vx : ℚ
  vy : ℚ
  r : ℚ
  phase : ℚ
  deriving DecidableEq

/-- The Seeder's particle count:
`count = Math.max(40, Math.floor(area * NODE_DENSITY))` where `area = W * H`. -/
def seedCount (w h : ℚ) : ℤ := max 40 ⌊w * h * NODE_DENSITY⌋

/-- One seeded node, with the random draws made explicit: `rx, ry, rvx, rvy, rr`
are the `Math.random()` values in `[0, 1)` and `ph` is the drawn phase
(the source sets `phase = Math.random() * Math.PI * 2`; the phase value plays
no role beyond desynchronising the pulse, so it is passed through directly).
The source sets `x = rx * W`, `y = ry * H`, and `ox = x, oy = y`. -/
def seedNode (w h rx ry rvx rvy rr ph : ℚ) : Node where
  x := rx * w
  y := ry * h
  ox := rx * w
  oy := ry * h
  vx := (rvx - 0.5) * DRIFT_SPEED * 2
  vy := (rvy - 0.5) * DRIFT_SPEED * 2
  r := NODE_MIN_R + rr * (NODE_MAX_R - NODE_MIN_R)
  phase := ph

/-- The pointer-influenced target of a node, from the animate loop:
target is the (post-drift) origin unless the mouse is active and
`0 < d < MOUSE_RADIUS`, in which case
`strength = (1 - d / MOUSE_RADIUS) * MOUSE_ATTRACT` and
`target = origin + (mouse - origin) * strength * 12` per axis.
`d` is the source's `dist(ox, oy, mouse.x, mouse.y)`. -/
def target (active : Bool) (mx my ox oy d : ℚ) : ℚ × ℚ :=
  if active then
    if d < MOUSE_RADIUS ∧ d > 0 then
      let strength := (1 - d / MOUSE_RADIUS) * MOUSE_ATTRACT
      (ox + (mx - ox) * strength * 12, oy + (my - oy) * strength * 12)
    else (ox, oy)
  else (ox, oy)

/-- One integrator step on one node (step 1 of the animate loop):
drift the origin, wrap the edges (margin 20), compute the target, and lerp the
rendered position toward it with factor `LERP_RETURN + 0.04`.  `d` stands for
the source's `dist(n.ox, n.oy, mouse.x, mouse.y)` computed after the drift. -/
def integrateNode (active : Bool) (w h mx my d : ℚ) (n : Node) : Node :=
  let ox := wrapCoord w 20 (n.ox + n.vx)
  let oy := wrapCoord h 20 (n.oy + n.vy)
  let t := target active mx my ox oy d
  { n with
    ox := ox
    oy := oy
    x := lerp n.x t.1 (LERP_RETURN + 0.04)
    y := lerp n.y t.2 (LERP_RETURN + 0.04) }

/-- Edge opacity between two nodes at render-position distance `d`:
drawn with `opacity = (1 - d / CONNECT_DIST) * 0.35` when `d < CONNECT_DIST`,
no edge (opacity 0) otherwise. -/
def connectionOpacity (d : ℚ) : ℚ :=
  if d < CONNECT_DIST then (1 - d / CONNECT_DIST) * 0.35 else 0

/-- The attraction strength factor including the `× 12` amplification:
the fraction of the home-to-pointer segment the target moves along. -/
def strengthAmp (d : ℚ) : ℚ := (1 - d / MOUSE_RADIUS) * MOUSE_ATTRACT * 12

/-- The magnitude of the attraction displacement `|target - homePos|` at
pointer distance `d`: the per-axis displacement is
`(mouse - origin) * strength * 12`, whose Euclidean norm is `d * strength * 12`. -/
def attractionMag (d : ℚ) : ℚ := d * ((1 - d / MOUSE_RADIUS) * MOUSE_ATTRACT) * 12

/-- The pulse-modulated radius used at render time:
`pulse = 1 + Math.sin(t * 2 + n.phase) * 0.15; r = n.r * pulse`.
`sinVal` stands for the sine value, in `[-1, 1]`. -/
def pulsedRadius (sinVal r : ℚ) : ℚ := r * (1 + sinVal * 0.15)

/-- The node-drawing pass reads the node and computes the transient pulsed
radius; it writes no node field, so it is modelled as returning the node
unchanged together with the radius actually drawn. -/
def drawNode (sinVal : ℚ) (n : Node) : Node × ℚ := (n, pulsedRadius sinVal n.r)

end Network

namespace Repulse

/-- Constant `PARTICLE_COUNT_FACTOR = 80` — particles per 1000px of screen width. -/
def PARTICLE_COUNT_FACTOR : ℚ := 80

/-- Constant `MOUSE_RADIUS = 150` — repulsion radius in px. -/
def MOUSE_RADIUS : ℚ := 150

/-- Constant `REPULSION_STRENGTH = 8` — how hard particles get pushed. -/
def REPULSION_STRENGTH : ℚ := 8

/-- Constant `LERP_SPEED = 0.04` — how fast particles return. -/
def LERP_SPEED : ℚ := 0.04

/-- Constant `DRIFT_SPEED = 0.3` — max floating drift speed. -/
def DRIFT_SPEED : ℚ := 0.3

/-- A particle of the repulsion-field variant. -/
structure Particle where
  x : ℚ
  y : ℚ
  baseX : ℚ
  baseY : ℚ
  vx : ℚ
  vy : ℚ
  radius : ℚ
  color : String
  alpha : ℚ
  deriving DecidableEq

/-- The repulsion target of a particle, from the animate loop:
`dx, dy` point from the mouse to the particle's home, `d` is the source's
`Math.sqrt(dx*dx + dy*dy)`; if `0 < d < MOUSE_RADIUS` then
`force = (1 - d / MOUSE_RADIUS) * REPULSION_STRENGTH` and
`push = (dx/d, dy/d) * force * MOUSE_RADIUS * 0.1`, `target = base + push`;
otherwise (including `d = 0` exactly) `target = base`. -/
def target (mx my bX bY d : ℚ) : ℚ × ℚ :=
  if d < MOUSE_RADIUS ∧ d > 0 then
    let force := (1 - d / MOUSE_RADIUS) * REPULSION_STRENGTH
    let pushX := (bX - mx) / d * force * MOUSE_RADIUS * 0.1
    let pushY := (bY - my) / d * force * MOUSE_RADIUS * 0.1
    (bX + pushX, bY + pushY)
  else (bX, bY)

/-- One integrator step on one particle: drift the home position, wrap the
edges (margin 10), compute the repulsion target, lerp the rendered position
toward it with `LERP_SPEED`.  `d` stands for the source's distance from the
mouse to the post-drift home position. -/
def integrateParticle (w h mx my d : ℚ) (p : Particle) : Particle :=
  let bX := wrapCoord w 10 (p.baseX + p.vx)
  let bY := wrapCoord h 10 (p.baseY + p.vy)
  let t := target mx my bX bY d
  { p with
    baseX := bX
    baseY := bY
    x := lerp p.x t.1 LERP_SPEED
    y := lerp p.y t.2 LERP_SPEED }

/-- The magnitude of the repulsion push at pointer distance `d`: the push
vector is the unit vector `(dx/d, dy/d)` scaled by
`force * MOUSE_RADIUS * 0.1`, so its norm is
`(1 - d / MOUSE_RADIUS) * REPULSION_STRENGTH * MOUSE_RADIUS * 0.1`. -/
def repulsionMag (d : ℚ) : ℚ :=
  (1 - d / MOUSE_RADIUS) * REPULSION_STRENGTH * MOUSE_RADIUS * 0.1

end Repulse

namespace Grid

/-- Constant `CELL = 50` — grid cell size. -/
def CELL : ℚ := 50

/-- Constant `GLOW_RADIUS = 220` — cursor influence reach (px). -/
def GLOW_RADIUS : ℚ := 220

/-- Constant `DOT_RADIUS = 2` — intersection dot size. -/
def DOT_RADIUS : ℚ := 2

/-- One per-frame update of one axis of the smoothed mouse position in the
grid variant.  The animate loop always performs
`mouse = lerp(mouse, rawMouse, 0.12)` and, when `mouseActive` is false,
additionally `mouse = lerp(mouse, -9999, 0.05)`.  Note the raw mouse position
is retained on mouse-leave (only the active flag is cleared). -/
def smoothAxisStep (active : Bool) (raw m : ℚ) : ℚ :=
  let m1 := lerp m raw 0.12
  if active then m1 else lerp m1 (-9999) 0.05

/-- The per-axis fixed point of the inactive-pointer update
`m ↦ lerp (lerp m raw 0.12) (-9999) 0.05`, i.e. the value the smoothed
coordinate actually converges to while the pointer stays inactive. -/
def smoothInactiveFixed (raw : ℚ) : ℚ :=
  (0.12 * 0.95 * raw + 0.05 * (-9999)) / (1 - 0.88 * 0.95)

end Grid

end Univerz

namespace Univerz

/-- Claim C5: for every particle and frame, each homePos coordinate remains
within `[-wrapMargin, viewportDimension + wrapMargin]` after the integrator
step; a coordinate exceeding the high bound after drift is reset to exactly
`-wrapMargin`, one below the low bound to exactly `viewportDimension +
wrapMargin`, and the two axes wrap independently (the x origin is a function
of the x data only, and symmetrically). -/
theorem C5_thm (dim margin x : ℚ) (hdim : 0 ≤ dim) (hmr : 0 ≤ margin) :
    (-margin ≤ wrapCoord dim margin x ∧ wrapCoord dim margin x ≤ dim + margin)
    ∧ (dim + margin < x → wrapCoord dim margin x = -margin)
    ∧ (x < -margin → wrapCoord dim margin x = dim + margin)
    ∧ (∀ (active : Bool) (w h mx my d : ℚ) (n : Network.Node),
        (Network.integrateNode active w h mx my d n).ox = wrapCoord w 20 (n.ox + n.vx)
        ∧ (Network.integrateNode active w h mx my d n).oy = wrapCoord h 20 (n.oy + n.vy))
    ∧ (∀ (w h mx my d : ℚ) (p : Repulse.Particle),
        (Repulse.integrateParticle w h mx my d p).baseX = wrapCoord w 10 (p.baseX + p.vx)
        ∧ (Repulse.integrateParticle w h mx my d p).baseY = wrapCoord h 10 (p.baseY + p.vy)) := by
  refine ⟨?_, ?_, ?_, fun _ _ _ _ _ _ _ => ⟨rfl, rfl⟩, fun _ _ _ _ _ _ => ⟨rfl, rfl⟩⟩
  · unfold wrapCoord
    dsimp only
    split_ifs <;> constructor <;> linarith
  · intro hx
    unfold wrapCoord
    dsimp only
    split_ifs <;> first | rfl | linarith
  · intro hx
    unfold wrapCoord
    dsimp only
    split_ifs <;> first | rfl | linarith

/-- Witness for C5 at `dim = 1000`, `margin = 20`, `x = 1021` (high-side wrap). -/
theorem C5_witness :
    ((-20 : ℚ) ≤ wrapCoord 1000 20 1021 ∧ wrapCoord 1000 20 1021 ≤ (1000 : ℚ) + 20)
    ∧ wrapCoord 1000 20 1021 = -20 := by
  have h := C5_thm 1000 20 1021 (by norm_num) (by norm_num)
  exact ⟨h.1, h.2.1 (by norm_num)⟩

/-- Claim C6: whenever the pointer is inactive the computed target equals the
home position exactly, for every particle.  In the network variant the active
flag being false short-circuits the influence block; in the repulsion variant
inactivity is the sentinel position `(-9999, -9999)`, whose distance to any
home position satisfying the wrap invariant exceeds every influence radius in
the repository (280, 250, 220 and 150), so the influence guard never fires and
the particle is in pure ambient drift. -/
theorem C6_thm (bX bY d : ℚ) (hx : -10 ≤ bX) (hy : -10 ≤ bY) (hd0 : 0 ≤ d)
    (hd : d ^ 2 = distSq bX bY (-9999) (-9999)) :
    Repulse.target (-9999) (-9999) bX bY d = (bX, bY)
    ∧ Network.MOUSE_RADIUS < d ∧ Network.MOUSE_CONNECT_DIST < d
    ∧ Grid.GLOW_RADIUS < d ∧ Repulse.MOUSE_RADIUS < d
    ∧ (∀ (mx my ox oy dd : ℚ), Network.target false mx my ox oy dd = (ox, oy)) := by
  have h1 : (9989 : ℚ) ≤ bX + 9999 := by linarith
  have h2 : (9989 : ℚ) ≤ bY + 9999 := by linarith
  have hdistSq : (9989 : ℚ) ^ 2 ≤ d ^ 2 := by
    rw [hd]
    unfold distSq
    nlinarith [sq_nonneg (bY + 9999)]
  have hbig : (280 : ℚ) < d := by nlinarith
  have hguard : ¬(d < Repulse.MOUSE_RADIUS ∧ d > 0) := by
    rintro ⟨hlt, -⟩
    rw [Repulse.MOUSE_RADIUS] at hlt
    linarith
  refine ⟨?_, ?_, ?_, ?_, ?_, fun _ _ _ _ _ => rfl⟩
  · simp only [Repulse.target, if_neg hguard]
  · rw [Network.MOUSE_RADIUS]; exact hbig
  · rw [Network.MOUSE_CONNECT_DIST]; linarith
  · rw [Grid.GLOW_RADIUS]; linarith
  · rw [Repulse.MOUSE_RADIUS]; linarith

/-- Witness for C6 at home position `(0, 3333)` and sentinel distance
`d = 16665` (a 3-4-5 triangle scaled by 3333: `9999² + 13332² = 16665²`). -/
theorem C6_witness :
    Repulse.target (-9999) (-9999) 0 3333 16665 = (0, 3333)
    ∧ Repulse.MOUSE_RADIUS < 16665 := by
  have h := C6_thm 0 3333 16665 (by norm_num) (by norm_num) (by norm_num)
    (by unfold distSq; norm_num)
  exact ⟨h.1, h.2.2.2.2.1⟩

/-- Claim C7: in the repulsion model the zero-distance case is guarded.  With
the pointer exactly at a particle home position the computed distance is 0, the
`dist > 0` guard fails, and the target is the home position itself (treated as
no influence), so the normalisation `dx / dist` is never evaluated with a zero
divisor; no non-finite value can enter the position state (in this
exact-rational model the guard is precisely what keeps the embedding faithful
to the float code, which would otherwise produce NaN). -/
theorem C7_thm (mx my bX bY d : ℚ) (hd0 : 0 ≤ d)
    (hd : d ^ 2 = distSq bX bY mx my) (hx : bX = mx) (hy : bY = my) :
    d = 0 ∧ Repulse.target mx my bX bY d = (bX, bY)
    ∧ (∀ (px py qx qy : ℚ), Repulse.target px py qx qy 0 = (qx, qy)) := by
  have hzero : d = 0 := by
    have hsq : d ^ 2 = 0 := by
      rw [hd, hx, hy]
      unfold distSq
      ring
    exact pow_eq_zero_iff (two_ne_zero) |>.mp hsq
  subst hzero
  refine ⟨rfl, ?_, ?_⟩
  · simp [Repulse.target]
  · intro px py qx qy
    simp [Repulse.target]

/-- Witness for C7 with the pointer at `(5, 5)` and a particle home at
`(5, 5)`: the distance is 0 and the target is the home position. -/
theorem C7_witness :
    (0 : ℚ) = 0 ∧ Repulse.target 5 5 5 5 0 = (5, 5) := by
  have h := C7_thm 5 5 5 5 0 (by norm_num) (by unfold distSq; norm_num) rfl rfl
  exact ⟨h.1, h.2.1⟩

/-- Claim C8: in the network variant, the connection opacity at
render-position distance `d` between two particles is zero (no edge drawn) at
`d ≥ CONNECT_DIST`, equals `(1 - d / CONNECT_DIST) * 0.35` for `d` below the
threshold — a linear falloff, bounded by and attaining the fixed maximum 0.35
at `d = 0`, and strictly decreasing up to the threshold. -/
theorem C8_thm (ax ay bx bY d : ℚ) (hd0 : 0 ≤ d)
    (hd : d ^ 2 = distSq ax ay bx bY) :
    (Network.CONNECT_DIST ≤ d → Network.connectionOpacity d = 0)
    ∧ (d < Network.CONNECT_DIST →
        Network.connectionOpacity d = (1 - d / Network.CONNECT_DIST) * 0.35)
    ∧ Network.connectionOpacity d ≤ 0.35
    ∧ Network.connectionOpacity 0 = 0.35
    ∧ (∀ d1 d2 : ℚ, 0 ≤ d1 → d1 < d2 → d2 ≤ Network.CONNECT_DIST →
        Network.connectionOpacity d2 < Network.connectionOpacity d1) := by
  simp only [Network.connectionOpacity, Network.CONNECT_DIST]
  refine ⟨?_, ?_, ?_, ?_, ?_⟩
  · intro hge
    rw [if_neg (by linarith)]
  · intro hlt
    rw [if_pos hlt]
  · split_ifs with hlt
    · nlinarith
    · norm_num
  · rw [if_pos (by norm_num)]
    norm_num
  · intro d1 d2 h0 h12 h2R
    split_ifs with ha hb hb
    · nlinarith
    · linarith
    · nlinarith
    · linarith

/-- Witness for C8 at `d = 90` (the render-position distance of particles at
`(0, 0)` and `(90, 0)`): the opacity is `(1 - 90/180) * 0.35` and below the
maximum, and the falloff is strict between 90 and 180. -/
theorem C8_witness :
    Network.connectionOpacity 90 = (1 - 90 / Network.CONNECT_DIST) * 0.35
    ∧ Network.connectionOpacity 90 ≤ 0.35
    ∧ Network.connectionOpacity 180 < Network.connectionOpacity 90 := by
  have h := C8_thm 0 0 90 0 90 (by norm_num) (by unfold distSq; norm_num)
  refine ⟨h.2.1 (by norm_num [Network.CONNECT_DIST]), h.2.2.1, ?_⟩
  exact h.2.2.2.2 90 180 (by norm_num) (by norm_num)
    (by norm_num [Network.CONNECT_DIST])

/-- Claim C9: after seeding, the integrator mutates only the render and home
positions: the drift velocity, radius, phase (network variant) and the drift
velocity, radius, color, alpha (repulsion variant) of a particle are preserved
by every integrator step, and the pulse-modulated radius used at render time is
computed transiently without writing the particle radius field. -/
theorem C9_thm :
    (∀ (active : Bool) (w h mx my d : ℚ) (n : Network.Node),
        (Network.integrateNode active w h mx my d n).vx = n.vx
        ∧ (Network.integrateNode active w h mx my d n).vy = n.vy
        ∧ (Network.integrateNode active w h mx my d n).r = n.r
        ∧ (Network.integrateNode active w h mx my d n).phase = n.phase)
    ∧ (∀ (w h mx my d : ℚ) (p : Repulse.Particle),
        (Repulse.integrateParticle w h mx my d p).vx = p.vx
        ∧ (Repulse.integrateParticle w h mx my d p).vy = p.vy
        ∧ (Repulse.integrateParticle w h mx my d p).radius = p.radius
        ∧ (Repulse.integrateParticle w h mx my d p).color = p.color
        ∧ (Repulse.integrateParticle w h mx my d p).alpha = p.alpha)
    ∧ (∀ (sinVal : ℚ) (n : Network.Node),
        (Network.drawNode sinVal n).1 = n
        ∧ (Network.drawNode sinVal n).2 = Network.pulsedRadius sinVal n.r) :=
  ⟨fun _ _ _ _ _ _ _ => ⟨rfl, rfl, rfl, rfl⟩,
   fun _ _ _ _ _ _ => ⟨rfl, rfl, rfl, rfl, rfl⟩,
   fun _ _ => ⟨rfl, rfl⟩⟩

/-- Counterexample to claim C1 as stated: the claim identifies the pointer
influence of the attraction model with the displacement magnitude
`|target - homePos| = d * (1 - d/influenceRadius) * attractCoefficient *
amplification` and asserts it is maximal at `d = 0` and monotonically
decreasing on the open interval; in fact it is 0 at `d = 0` and larger at
`d = 140` than at `d = 100`. -/
theorem C1_counterexample :
    Network.attractionMag 0 = 0
    ∧ 0 < Network.attractionMag 140
    ∧ Network.attractionMag 100 < Network.attractionMag 140 := by
  norm_num [Network.attractionMag, Network.MOUSE_RADIUS, Network.MOUSE_ATTRACT]

/-- Claim C1 amended: the repulsion push magnitude
`(1 - d/repulsionRadius) * repulsionStrength * repulsionRadius * 0.1` is
maximal (120, bounded and finite) at distance 0, exactly zero at the
repulsion radius, and strictly decreasing in between; the attraction strength
factor `(1 - d/influenceRadius) * attractCoefficient * amplification` likewise
is maximal (0.144) at 0, zero at the influence radius and strictly decreasing;
but the attraction displacement magnitude `|target - homePos|` equals
`d` times that factor, hence is 0 at distance 0, increases up to `d = 140`
(half the influence radius) and only then decreases back to zero. -/
theorem C1_thm (d1 d2 : ℚ) (h0 : 0 ≤ d1) (h12 : d1 < d2) :
    Repulse.repulsionMag 0 = 120
    ∧ Repulse.repulsionMag Repulse.MOUSE_RADIUS = 0
    ∧ (d2 ≤ Repulse.MOUSE_RADIUS → Repulse.repulsionMag d2 < Repulse.repulsionMag d1)
    ∧ Network.strengthAmp 0 = 0.144
    ∧ Network.strengthAmp Network.MOUSE_RADIUS = 0
    ∧ (d2 ≤ Network.MOUSE_RADIUS → Network.strengthAmp d2 < Network.strengthAmp d1)
    ∧ Network.attractionMag 0 = 0
    ∧ Network.attractionMag Network.MOUSE_RADIUS = 0
    ∧ (d2 ≤ 140 → Network.attractionMag d1 < Network.attractionMag d2)
    ∧ (140 ≤ d1 → d2 ≤ Network.MOUSE_RADIUS →
        Network.attractionMag d2 < Network.attractionMag d1)
    ∧ (∀ e : ℚ, Network.attractionMag e = e * Network.strengthAmp e) := by
  simp only [Repulse.repulsionMag, Repulse.MOUSE_RADIUS, Repulse.REPULSION_STRENGTH,
    Network.strengthAmp, Network.attractionMag, Network.MOUSE_RADIUS, Network.MOUSE_ATTRACT]
  refine ⟨by norm_num, by norm_num, ?_, by norm_num, by norm_num, ?_,
    by norm_num, by norm_num, ?_, ?_, fun e => by ring⟩
  · intro h2
    nlinarith
  · intro h2
    nlinarith
  · intro h2
    nlinarith [mul_pos (sub_pos.mpr h12) (show (0 : ℚ) < 1 - (d1 + d2) / 280 by linarith)]
  · intro h1 h2
    nlinarith [mul_pos (sub_pos.mpr h12) (show (0 : ℚ) < (d1 + d2) / 280 - 1 by linarith)]

/-- Witness for C1 amended at `d1 = 50`, `d2 = 100`: the repulsion magnitude
strictly falls from 50 to 100 while the attraction displacement magnitude
strictly rises. -/
theorem C1_witness :
    Repulse.repulsionMag 100 < Repulse.repulsionMag 50
    ∧ Repulse.repulsionMag 0 = 120
    ∧ Network.attractionMag 50 < Network.attractionMag 100 := by
  have h := C1_thm 50 100 (by norm_num) (by norm_num)
  exact ⟨h.2.2.1 (by norm_num [Repulse.MOUSE_RADIUS]), h.1,
    h.2.2.2.2.2.2.2.2.1 (by norm_num)⟩

/-- Counterexample to claim C2 as stated: for a 1920×1080 viewport the
area-driven Seeder count is `max(40, ⌊1920 * 1080 * 0.00008⌋) =
max(40, ⌊165.888⌋) = 165`, not 155. -/
theorem C2_counterexample : Network.seedCount 1920 1080 ≠ 155 := by
  norm_num [Network.seedCount, Network.NODE_DENSITY]

/-- Claim C2 amended: for a 1920×1080 viewport the area-driven Seeder
(count = `max(minimumFloor, ⌊viewportArea * density⌋)` with floor 40 and
density 0.00008) produces exactly 165 particles, and every seeded particle
starts with `renderPos = homePos` inside `[0, width] × [0, height]`. -/
theorem C2_thm (w h rx ry rvx rvy rr ph : ℚ)
    (hw : 0 ≤ w) (hh : 0 ≤ h)
    (hrx0 : 0 ≤ rx) (hrx1 : rx < 1) (hry0 : 0 ≤ ry) (hry1 : ry < 1) :
    Network.seedCount 1920 1080 = 165
    ∧ (Network.seedNode w h rx ry rvx rvy rr ph).x
        = (Network.seedNode w h rx ry rvx rvy rr ph).ox
    ∧ (Network.seedNode w h rx ry rvx rvy rr ph).y
        = (Network.seedNode w h rx ry rvx rvy rr ph).oy
    ∧ 0 ≤ (Network.seedNode w h rx ry rvx rvy rr ph).x
    ∧ (Network.seedNode w h rx ry rvx rvy rr ph).x ≤ w
    ∧ 0 ≤ (Network.seedNode w h rx ry rvx rvy rr ph).y
    ∧ (Network.seedNode w h rx ry rvx rvy rr ph).y ≤ h := by
  refine ⟨by norm_num [Network.seedCount, Network.NODE_DENSITY], rfl, rfl, ?_, ?_, ?_, ?_⟩
  · exact mul_nonneg hrx0 hw
  · show rx * w ≤ w
    nlinarith
  · exact mul_nonneg hry0 hh
  · show ry * h ≤ h
    nlinarith

/-- Witness for C2 amended at `w = 1920`, `h = 1080`, random draws `1/2`:
165 particles, and the seeded node starts at `(960, 540)` within bounds. -/
theorem C2_witness :
    Network.seedCount 1920 1080 = 165
    ∧ 0 ≤ (Network.seedNode 1920 1080 (1/2) (1/2) 0 0 0 0).x
    ∧ (Network.seedNode 1920 1080 (1/2) (1/2) 0 0 0 0).x ≤ 1920 := by
  have h := C2_thm 1920 1080 (1/2) (1/2) 0 0 0 0 (by norm_num) (by norm_num)
    (by norm_num) (by norm_num) (by norm_num) (by norm_num)
  exact ⟨h.1, h.2.2.2.1, h.2.2.2.2.1⟩

/-- With the pointer inactive the network integrator reduces to drift, wrap
and a lerp of the rendered position toward the post-drift origin. -/
theorem integrateNode_inactive (w h mx my d : ℚ) (n : Network.Node) :
    Network.integrateNode false w h mx my d n =
      { n with
        ox := wrapCoord w 20 (n.ox + n.vx)
        oy := wrapCoord h 20 (n.oy + n.vy)
        x := lerp n.x (wrapCoord w 20 (n.ox + n.vx)) (Network.LERP_RETURN + 0.04)
        y := lerp n.y (wrapCoord h 20 (n.oy + n.vy)) (Network.LERP_RETURN + 0.04) } := rfl

/-- A coordinate already inside the wrap bounds passes through unchanged. -/
theorem wrapCoord_eq_self (dim margin x : ℚ) (h1 : -margin ≤ x)
    (h2 : x ≤ dim + margin) : wrapCoord dim margin x = x := by
  unfold wrapCoord
  dsimp only
  rw [if_neg (show ¬x < -margin by linarith)]
  rw [if_neg (show ¬x > dim + margin by linarith)]

/-- Counterexample to claim C3 as stated: a freshly seeded node has
`renderPos = homePos` (distance 0); one inactive-pointer frame later, with the
nonzero drift velocity produced by the random draw 0.9, the distance is
strictly positive — so under drift the render-to-home distance is not
non-increasing from frame to frame. -/
theorem C3_counterexample :
    distSq (Network.seedNode 1000 1000 0.5 0.5 0.9 0.5 0.5 0).x
           (Network.seedNode 1000 1000 0.5 0.5 0.9 0.5 0.5 0).y
           (Network.seedNode 1000 1000 0.5 0.5 0.9 0.5 0.5 0).ox
           (Network.seedNode 1000 1000 0.5 0.5 0.9 0.5 0.5 0).oy = 0
    ∧ 0 < distSq
        (Network.integrateNode false 1000 1000 0 0 0
          (Network.seedNode 1000 1000 0.5 0.5 0.9 0.5 0.5 0)).x
        (Network.integrateNode false 1000 1000 0 0 0
          (Network.seedNode 1000 1000 0.5 0.5 0.9 0.5 0.5 0)).y
        (Network.integrateNode false 1000 1000 0 0 0
          (Network.seedNode 1000 1000 0.5 0.5 0.9 0.5 0.5 0)).ox
        (Network.integrateNode false 1000 1000 0 0 0
          (Network.seedNode 1000 1000 0.5 0.5 0.9 0.5 0.5 0)).oy := by
  rw [integrateNode_inactive]
  norm_num [Network.seedNode, Network.DRIFT_SPEED, Network.NODE_MIN_R,
    Network.NODE_MAX_R, Network.LERP_RETURN, wrapCoord, lerp, distSq]

/-- Claim C3 amended: with the pointer inactive, the per-frame lerp contracts
the distance from the rendered position to the current (post-drift) home
position by the exact factor `1 - (LERP_RETURN + 0.04) = 0.93`; when the drift
velocity is zero (so the home position does not move and no wrap fires) the
render-to-home distance is non-increasing frame to frame and each axis offset
shrinks by the factor 0.93 without changing sign — no oscillation, overshoot
or divergence.  With nonzero drift the distance to the home position is not
non-increasing (it rises from zero for a freshly seeded particle). -/
theorem C3_thm (w h mx my d : ℚ) (n : Network.Node) :
    distSq (Network.integrateNode false w h mx my d n).x
           (Network.integrateNode false w h mx my d n).y
           (Network.integrateNode false w h mx my d n).ox
           (Network.integrateNode false w h mx my d n).oy
      = (1 - (Network.LERP_RETURN + 0.04)) ^ 2
        * distSq n.x n.y (Network.integrateNode false w h mx my d n).ox
                         (Network.integrateNode false w h mx my d n).oy
    ∧ (n.vx = 0 → n.vy = 0 →
        -20 ≤ n.ox → n.ox ≤ w + 20 → -20 ≤ n.oy → n.oy ≤ h + 20 →
        (Network.integrateNode false w h mx my d n).ox = n.ox
        ∧ (Network.integrateNode false w h mx my d n).oy = n.oy
        ∧ (Network.integrateNode false w h mx my d n).x - n.ox
            = (1 - (Network.LERP_RETURN + 0.04)) * (n.x - n.ox)
        ∧ (Network.integrateNode false w h mx my d n).y - n.oy
            = (1 - (Network.LERP_RETURN + 0.04)) * (n.y - n.oy)
        ∧ distSq (Network.integrateNode false w h mx my d n).x
                 (Network.integrateNode false w h mx my d n).y n.ox n.oy
            ≤ distSq n.x n.y n.ox n.oy) := by
  rw [integrateNode_inactive]
  constructor
  · unfold distSq lerp
    ring
  · intro hvx hvy hx1 hx2 hy1 hy2
    have hwx : wrapCoord w 20 (n.ox + n.vx) = n.ox := by
      rw [hvx, add_zero]
      exact wrapCoord_eq_self w 20 n.ox hx1 hx2
    have hwy : wrapCoord h 20 (n.oy + n.vy) = n.oy := by
      rw [hvy, add_zero]
      exact wrapCoord_eq_self h 20 n.oy hy1 hy2
    rw [hwx, hwy]
    refine ⟨rfl, rfl, by unfold lerp; ring, by unfold lerp; ring, ?_⟩
    unfold distSq lerp Network.LERP_RETURN
    dsimp only
    nlinarith [sq_nonneg (n.x - n.ox), sq_nonneg (n.y - n.oy)]

/-- Witness for C3 amended: a node at render position `(10, 0)`, home `(0, 0)`,
zero drift, in a 1000×1000 viewport; one inactive frame multiplies the
squared render-to-home distance by `0.93² = 0.8649`, which is non-increasing. -/
theorem C3_witness :
    distSq (Network.integrateNode false 1000 1000 0 0 0
        (Network.Node.mk 10 0 0 0 0 0 1 0)).x
      (Network.integrateNode false 1000 1000 0 0 0
        (Network.Node.mk 10 0 0 0 0 0 1 0)).y 0 0
    ≤ distSq 10 0 0 0 := by
  have h := (C3_thm 1000 1000 0 0 0 (Network.Node.mk 10 0 0 0 0 0 1 0)).2
    rfl rfl (by norm_num) (by norm_num) (by norm_num) (by norm_num)
  exact h.2.2.2.2

/-- Counterexample to claim C4 as stated: while the pointer is inactive the
grid variant's smoothed coordinate is not updated by a single lerp toward the
sentinel: the off-screen sentinel −9999 is not even a fixed point of the
per-frame update when the retained raw coordinate is 500 (the update moves it
away), and the actual fixed point, `(0.114 · 500 − 499.95) / 0.164 =
−221475/82 ≈ −2701`, differs from the sentinel — so the smoothed position
converges to a point depending on the last raw position, not to the
sentinel. -/
theorem C4_counterexample :
    Grid.smoothAxisStep false 500 (-9999) ≠ -9999
    ∧ Grid.smoothAxisStep false 500 (-221475/82) = -221475/82
    ∧ (-221475/82 : ℚ) ≠ -9999 := by
  norm_num [Grid.smoothAxisStep, lerp]

/-- Claim C4 amended: each frame the grid variant updates the smoothed pointer
coordinate by first lerping toward the raw coordinate with factor 0.12 and,
while the pointer is inactive, additionally lerping the result toward the
off-screen sentinel −9999 with factor 0.05 (the raw coordinate is retained on
pointer-leave).  While inactive the update is a contraction with factor
`0.88 · 0.95 = 0.836` toward the fixed point `(0.114·raw − 499.95) / 0.164`,
which depends on the last raw coordinate and differs from the sentinel
(it would equal the sentinel only if the raw coordinate were reset to it). -/
theorem C4_thm (raw m : ℚ) :
    Grid.smoothAxisStep true raw m = lerp m raw 0.12
    ∧ Grid.smoothAxisStep false raw m = lerp (lerp m raw 0.12) (-9999) 0.05
    ∧ Grid.smoothAxisStep false raw m - Grid.smoothInactiveFixed raw
        = 0.88 * 0.95 * (m - Grid.smoothInactiveFixed raw)
    ∧ Grid.smoothAxisStep false raw (Grid.smoothInactiveFixed raw)
        = Grid.smoothInactiveFixed raw
    ∧ Grid.smoothInactiveFixed (-9999) = -9999
    ∧ Grid.smoothInactiveFixed 500 ≠ -9999
    ∧ Grid.smoothInactiveFixed 0 ≠ Grid.smoothInactiveFixed 500 := by
  have hstep : ∀ mm : ℚ,
      Grid.smoothAxisStep false raw mm = lerp (lerp mm raw 0.12) (-9999) 0.05 :=
    fun _ => rfl
  have hfix : ∀ r : ℚ, Grid.smoothInactiveFixed r = (0.114 * r - 499.95) / 0.164 := by
    intro r
    unfold Grid.smoothInactiveFixed
    ring
  refine ⟨rfl, hstep m, ?_, ?_, ?_, ?_, ?_⟩
  · rw [hstep m, hfix]
    unfold lerp
    ring
  · rw [hstep (Grid.smoothInactiveFixed raw), hfix]
    unfold lerp
    ring
  · rw [hfix]
    norm_num
  · rw [hfix]
    norm_num
  · rw [hfix, hfix]
    norm_num

/-- Claim C10: in the network variant, with the pointer active and
`0 < d < MOUSE_RADIUS`, the target is the point a fraction
`strengthAmp d = (1 - d/MOUSE_RADIUS) * MOUSE_ATTRACT * 12` of the way from
the home position to the pointer: the fraction is strictly positive, at most
`0.012 · 12 = 0.144 < 1`, so the target lies strictly between home position
and pointer on the segment joining them and never overshoots the pointer, and
the squared displacement satisfies `|target − homePos|² = (strengthAmp d)²·d²
≤ (0.144·d)²`. -/
theorem C10_thm (mx my ox oy d : ℚ) (h0 : 0 < d) (hR : d < Network.MOUSE_RADIUS)
    (hd : d ^ 2 = distSq ox oy mx my) :
    Network.target true mx my ox oy d
      = (lerp ox mx (Network.strengthAmp d), lerp oy my (Network.strengthAmp d))
    ∧ 0 < Network.strengthAmp d
    ∧ Network.strengthAmp d ≤ 0.144
    ∧ Network.strengthAmp d < 1
    ∧ distSq (Network.target true mx my ox oy d).1
        (Network.target true mx my ox oy d).2 ox oy
        = Network.strengthAmp d ^ 2 * d ^ 2
    ∧ distSq (Network.target true mx my ox oy d).1
        (Network.target true mx my ox oy d).2 mx my
        = (1 - Network.strengthAmp d) ^ 2 * d ^ 2
    ∧ distSq (Network.target true mx my ox oy d).1
        (Network.target true mx my ox oy d).2 ox oy
        ≤ (0.144 * d) ^ 2 := by
  have hcond : d < Network.MOUSE_RADIUS ∧ d > 0 := ⟨hR, h0⟩
  have htgt : Network.target true mx my ox oy d
      = (ox + (mx - ox) * ((1 - d / Network.MOUSE_RADIUS) * Network.MOUSE_ATTRACT) * 12,
         oy + (my - oy) * ((1 - d / Network.MOUSE_RADIUS) * Network.MOUSE_ATTRACT) * 12) := by
    unfold Network.target
    rw [if_pos hcond]
    rfl
  have hR280 : d < 280 := by
    rw [Network.MOUSE_RADIUS] at hR
    exact hR
  have hamp : Network.strengthAmp d = (1 - d / 280) * 0.144 := by
    unfold Network.strengthAmp
    rw [Network.MOUSE_RADIUS, Network.MOUSE_ATTRACT]
    ring
  have hpos : 0 < Network.strengthAmp d := by
    rw [hamp]
    nlinarith
  have hle : Network.strengthAmp d ≤ 0.144 := by
    rw [hamp]
    nlinarith
  have h5 : distSq (Network.target true mx my ox oy d).1
      (Network.target true mx my ox oy d).2 ox oy
      = Network.strengthAmp d ^ 2 * d ^ 2 := by
    rw [htgt, hamp, Network.MOUSE_RADIUS, Network.MOUSE_ATTRACT]
    unfold distSq
    unfold distSq at hd
    linear_combination (-((1 - d / 280) * 0.144) ^ 2) * hd
  have h6 : distSq (Network.target true mx my ox oy d).1
      (Network.target true mx my ox oy d).2 mx my
      = (1 - Network.strengthAmp d) ^ 2 * d ^ 2 := by
    rw [htgt, hamp, Network.MOUSE_RADIUS, Network.MOUSE_ATTRACT]
    unfold distSq
    unfold distSq at hd
    linear_combination (-(1 - (1 - d / 280) * 0.144) ^ 2) * hd
  refine ⟨?_, hpos, hle, by linarith, h5, h6, ?_⟩
  · rw [htgt, hamp, Network.MOUSE_RADIUS, Network.MOUSE_ATTRACT, Prod.mk.injEq]
    constructor <;> (unfold lerp; ring)
  · rw [h5]
    have hf2 : Network.strengthAmp d ^ 2 ≤ 0.144 ^ 2 := by nlinarith [hpos, hle]
    calc Network.strengthAmp d ^ 2 * d ^ 2
        ≤ 0.144 ^ 2 * d ^ 2 := mul_le_mul_of_nonneg_right hf2 (sq_nonneg d)
      _ = (0.144 * d) ^ 2 := by ring

/-- Witness for C10 with the pointer at `(100, 0)` and a home position at the
origin, distance 100: the target lies strictly between them and its squared
displacement is bounded by `(0.144 · 100)²`. -/
theorem C10_witness :
    Network.target true 100 0 0 0 100
      = (lerp 0 100 (Network.strengthAmp 100), lerp 0 0 (Network.strengthAmp 100))
    ∧ 0 < Network.strengthAmp 100
    ∧ Network.strengthAmp 100 < 1
    ∧ distSq (Network.target true 100 0 0 0 100).1
        (Network.target true 100 0 0 0 100).2 0 0 ≤ (0.144 * 100) ^ 2 := by
  have h := C10_thm 100 0 0 0 100 (by norm_num)
    (by rw [Network.MOUSE_RADIUS]; norm_num) (by unfold distSq; norm_num)
  exact ⟨h.1, h.2.1, h.2.2.2.1, h.2.2.2.2.2.2⟩

end Univerz
